import Mathlib

/-!
Shallow embedding of the penguins dashboard (`src/app/app.py`).

The reactive core of the app is the `filtered_df` calculation: it takes the
loaded penguin DataFrame and the two sidebar inputs (the selected species
list and the maximum-mass slider value) and produces the filtered DataFrame
by two successive pandas filters:

    filt_df = df[df["species"].isin(input.species())]
    filt_df = filt_df.loc[filt_df["body_mass_g"] < input.mass()]

A DataFrame is embedded as a `List Record`; numeric columns that can hold a
pandas missing value (NaN) are embedded as `Option ℚ`, with `none` playing
the role of NaN: a NaN compared with `<` yields `False` in pandas, and
`Series.mean` skips NaN entries (returning NaN when nothing is left).
The reactive inputs are passed explicitly as a `FilterSelection` value.
-/

namespace Penguins

/-- One row of the penguin DataFrame (the columns the app reads). -/
structure Record where
  species : String
  island : String
  bill_length_mm : Option ℚ
  bill_depth_mm : Option ℚ
  body_mass_g : Option ℚ
  deriving DecidableEq, Repr

/-- The two sidebar inputs read by `filtered_df`: `input.species()` (the
checkbox group) and `input.mass()` (the slider). -/
structure FilterSelection where
  species_selected : List String
  max_mass : ℚ
  deriving DecidableEq, Repr

/-- pandas `Series.isin`: membership of a cell value in the given list. -/
def isin (sel : List String) (s : String) : Bool :=
  sel.contains s

/-- pandas `<` on a possibly-missing cell: a NaN (`none`) cell compares
false against any threshold. -/
def ltNaN (b : Option ℚ) (m : ℚ) : Bool :=
  match b with
  | none => false
  | some x => x < m

/-- The reactive filter computation of `app.py`:
first keep rows whose species is in the selected list, then keep rows
whose body mass is strictly below the slider value. -/
def filtered_df (df : List Record) (sel : FilterSelection) : List Record :=
  let filt_df := df.filter (fun r => isin sel.species_selected r.species)
  let filt_df := filt_df.filter (fun r => ltNaN r.body_mass_g sel.max_mass)
  filt_df

/-- pandas `DataFrame.shape[0]`: the number of rows. -/
def shape0 (df : List Record) : Nat :=
  df.length

/-- The `count` render: `f"{filtered_df().shape[0]} penguins"`. -/
def count (df : List Record) (sel : FilterSelection) : String :=
  toString (shape0 (filtered_df df sel)) ++ " penguins"

/-- pandas `Series.mean`: the arithmetic mean of the non-NaN entries,
NaN (`none`) when there are none. -/
def seriesMean (xs : List (Option ℚ)) : Option ℚ :=
  let vals := xs.filterMap id
  if vals.length = 0 then none
  else some (vals.sum / (vals.length : ℚ))

/-- Python `format(x, ".1f")` on a possibly-NaN value: NaN prints as
`"nan"`, a number prints with one decimal digit. -/
def fmt1 (x : Option ℚ) : String :=
  match x with
  | none => "nan"
  | some q =>
    let n : Int := round (q * 10)
    let s := if n < 0 then "-" else ""
    s ++ toString (n.natAbs / 10) ++ "." ++ toString (n.natAbs % 10)

/-- The `bill_length` render: `f"Avg: {filtered_df()['bill_length_mm'].mean():.1f} mm"`. -/
def bill_length (df : List Record) (sel : FilterSelection) : String :=
  "Avg: " ++ fmt1 (seriesMean ((filtered_df df sel).map Record.bill_length_mm)) ++ " mm"

/-- The `bill_depth` render: `f"Avg: {filtered_df()['bill_depth_mm'].mean():.1f} mm"`. -/
def bill_depth (df : List Record) (sel : FilterSelection) : String :=
  "Avg: " ++ fmt1 (seriesMean ((filtered_df df sel).map Record.bill_depth_mm)) ++ " mm"

/-! Sample data: the three-record scenario of the spec. -/

/-- Sample row (Adelie, mass 3000). -/
def rA : Record := ⟨"Adelie", "Torgersen", some 39, some 18, some 3000⟩

/-- Sample row (Gentoo, mass 5000). -/
def rG : Record := ⟨"Gentoo", "Biscoe", some 47, some 15, some 5000⟩

/-- Sample row (Chinstrap, mass 4000). -/
def rC : Record := ⟨"Chinstrap", "Dream", some 49, some 18, some 4000⟩

/-- Sample row with a missing (NaN) body mass. -/
def rN : Record := ⟨"Adelie", "Dream", some 40, some 18, none⟩

/-- Sample dataset. -/
def sampleD : List Record := [rA, rG, rC]

/-- Sample selection: species {Adelie, Gentoo}, maximum mass 4500. -/
def sampleS : FilterSelection := ⟨["Adelie", "Gentoo"], 4500⟩

/-! Helper lemmas. -/

/-- The pandas `<` test succeeds exactly on present values strictly below
the threshold. -/
theorem ltNaN_true_iff (b : Option ℚ) (m : ℚ) :
    ltNaN b m = true ↔ ∃ x, b = some x ∧ x < m := by
  cases b <;> simp [ltNaN]

/-- Membership characterisation of `filtered_df`. -/
theorem mem_filtered_df (D : List Record) (S : FilterSelection) (r : Record) :
    r ∈ filtered_df D S ↔
      r ∈ D ∧ isin S.species_selected r.species = true ∧
        ltNaN r.body_mass_g S.max_mass = true := by
  simp only [filtered_df, List.mem_filter, and_assoc]

example : filtered_df sampleD sampleS = [rA] := by decide

/-- The `isin` test succeeds exactly on members of the selected list. -/
theorem isin_true_iff (sel : List String) (s : String) :
    isin sel s = true ↔ s ∈ sel := by
  simp [isin]

/-- Selection with no species checked and the slider at its default. -/
def emptyS : FilterSelection := ⟨[], 6000⟩

/-- Selection with all three species checked and the slider at its default. -/
def allS : FilterSelection := ⟨["Adelie", "Gentoo", "Chinstrap"], 6000⟩

/-- Selection strictly below `sampleS`: fewer species, lower threshold. -/
def smallS : FilterSelection := ⟨["Adelie"], 4000⟩

/-- C1: `filtered_df` returns exactly the records of the dataset whose
species is in the selected list and whose body mass is strictly below
`max_mass`; in particular a record whose body mass equals `max_mass` is
excluded. -/
theorem c1_filtered_df_exact (D : List Record) (S : FilterSelection) :
    (∀ r, r ∈ filtered_df D S ↔
      r ∈ D ∧ r.species ∈ S.species_selected ∧
        ∃ b, r.body_mass_g = some b ∧ b < S.max_mass) ∧
    (∀ r, r.body_mass_g = some S.max_mass → r ∉ filtered_df D S) := by
  constructor
  · intro r
    rw [mem_filtered_df, ltNaN_true_iff, isin_true_iff]
  · intro r hb hm
    rcases (mem_filtered_df D S r).1 hm with ⟨-, -, hlt⟩
    rw [hb] at hlt
    simp [ltNaN] at hlt

/-- Witness for C1 on the spec's scenario: the light Adelie is kept, and a
record whose mass equals the threshold 4500 is excluded. -/
theorem c1_filtered_df_exact_witness :
    rA ∈ filtered_df sampleD sampleS ∧
      (⟨"Adelie", "Dream", some 40, some 18, some 4500⟩ : Record) ∉
        filtered_df sampleD sampleS :=
  ⟨((c1_filtered_df_exact sampleD sampleS).1 rA).2
      ⟨by decide, by decide, 3000, rfl, by decide⟩,
    (c1_filtered_df_exact sampleD sampleS).2 _ rfl⟩

/-- C2: on an empty filtered view both average renders stay total (no
numeric error): the pandas mean is NaN (`none`), not a number, and the
rendered strings are the explicit `"Avg: nan mm"` no-data output. -/
theorem c2_empty_mean_no_data (D : List Record) (S : FilterSelection)
    (h : filtered_df D S = []) :
    seriesMean ((filtered_df D S).map Record.bill_length_mm) = none ∧
    seriesMean ((filtered_df D S).map Record.bill_depth_mm) = none ∧
    bill_length D S = "Avg: nan mm" ∧ bill_depth D S = "Avg: nan mm" := by
  refine ⟨by { rw [h]; rfl }, by { rw [h]; rfl }, ?_, ?_⟩
  · unfold bill_length
    rw [h]
    rfl
  · unfold bill_depth
    rw [h]
    rfl

/-- Witness for C2: with no species selected the view is empty and both
averages render as `"Avg: nan mm"`. -/
theorem c2_empty_mean_no_data_witness :
    bill_length sampleD emptyS = "Avg: nan mm" ∧
      bill_depth sampleD emptyS = "Avg: nan mm" :=
  ⟨(c2_empty_mean_no_data sampleD emptyS (by decide)).2.2.1,
    (c2_empty_mean_no_data sampleD emptyS (by decide)).2.2.2⟩

/-- C3: when every species occurring in the dataset is selected and every
record's body mass is present and strictly below `max_mass`, the filter
returns the full dataset, in order. -/
theorem c3_all_selected_full (D : List Record) (S : FilterSelection)
    (hs : ∀ r ∈ D, r.species ∈ S.species_selected)
    (hm : ∀ r ∈ D, ∃ b, r.body_mass_g = some b ∧ b < S.max_mass) :
    filtered_df D S = D := by
  unfold filtered_df
  have h1 : D.filter (fun r => isin S.species_selected r.species) = D :=
    List.filter_eq_self.mpr fun r hr => (isin_true_iff _ _).2 (hs r hr)
  rw [h1]
  exact List.filter_eq_self.mpr fun r hr => (ltNaN_true_iff _ _).2 (hm r hr)

/-- Witness for C3: all species selected, slider at 6000, sample kept whole. -/
theorem c3_all_selected_full_witness :
    filtered_df sampleD allS = sampleD :=
  c3_all_selected_full sampleD allS (by decide)
    (by
      intro r hr
      simp only [sampleD, List.mem_cons, List.not_mem_nil, or_false] at hr
      rcases hr with rfl | rfl | rfl
      · exact ⟨3000, rfl, by decide⟩
      · exact ⟨5000, rfl, by decide⟩
      · exact ⟨4000, rfl, by decide⟩)

/-- C4: the filtered view is a subset of the dataset. -/
theorem c4_subset (D : List Record) (S : FilterSelection) :
    filtered_df D S ⊆ D := by
  intro r hr
  exact ((mem_filtered_df D S r).1 hr).1

/-- Witness for C4: the surviving sample record is a record of the dataset. -/
theorem c4_subset_witness : rA ∈ sampleD :=
  c4_subset sampleD sampleS (show rA ∈ filtered_df sampleD sampleS by decide)

/-- C5: with no species selected the result is empty, whatever the
dataset and the mass threshold. -/
theorem c5_empty_species (D : List Record) (m : ℚ) :
    filtered_df D ⟨[], m⟩ = [] := by
  unfold filtered_df
  simp [isin]

/-- C6: the surviving records keep the relative order they have in the
dataset: the filtered view is a sublist of the dataset. -/
theorem c6_order_preserved (D : List Record) (S : FilterSelection) :
    List.Sublist (filtered_df D S) D := by
  unfold filtered_df
  exact (List.filter_sublist _).trans (List.filter_sublist _)

/-- C7: the filter is a deterministic pure function of the dataset and the
selection: identical inputs give identical output, order included. -/
theorem c7_deterministic (D₁ D₂ : List Record) (S₁ S₂ : FilterSelection)
    (hD : D₁ = D₂) (hS : S₁ = S₂) :
    filtered_df D₁ S₁ = filtered_df D₂ S₂ := by
  rw [hD, hS]

/-- Witness for C7 at the sample inputs. -/
theorem c7_deterministic_witness :
    filtered_df sampleD sampleS = filtered_df sampleD sampleS :=
  c7_deterministic sampleD sampleD sampleS sampleS rfl rfl

/-- C8: the count render displays exactly the cardinality of the filtered
view, and displays `"0 penguins"` when the view is empty. -/
theorem c8_count_cardinality (D : List Record) (S : FilterSelection) :
    count D S = toString (List.length (filtered_df D S)) ++ " penguins" ∧
      (filtered_df D S = [] → count D S = "0 penguins") := by
  refine ⟨rfl, ?_⟩
  intro h
  unfold count shape0
  rw [h]
  rfl

/-- Witness for C8: the empty selection displays a zero count. -/
theorem c8_count_cardinality_witness : count sampleD emptyS = "0 penguins" :=
  (c8_count_cardinality sampleD emptyS).2 (by decide)

/-- C9: a record with a missing (NaN) body mass is never in the filtered
view, whatever the threshold, because NaN compares false. -/
theorem c9_nan_mass_excluded (D : List Record) (S : FilterSelection)
    (r : Record) (h : r.body_mass_g = none) :
    r ∉ filtered_df D S := by
  intro hm
  rcases (mem_filtered_df D S r).1 hm with ⟨-, -, hlt⟩
  rw [h] at hlt
  simp [ltNaN] at hlt

/-- Witness for C9: the NaN-mass Adelie is excluded even at the maximal
slider value with its species selected. -/
theorem c9_nan_mass_excluded_witness :
    rN ∉ filtered_df [rA, rN] ⟨["Adelie"], 6000⟩ :=
  c9_nan_mass_excluded [rA, rN] ⟨["Adelie"], 6000⟩ rN rfl

/-- C10: the filter is monotone in the selection: enlarging the species
set and raising the threshold can only keep more records. -/
theorem c10_monotone (D : List Record) (S₁ S₂ : FilterSelection)
    (hs : S₁.species_selected ⊆ S₂.species_selected)
    (hm : S₁.max_mass ≤ S₂.max_mass) :
    ∀ r, r ∈ filtered_df D S₁ → r ∈ filtered_df D S₂ := by
  intro r hr
  rcases (mem_filtered_df D S₁ r).1 hr with ⟨hD, hsp, hlt⟩
  refine (mem_filtered_df D S₂ r).2 ⟨hD, ?_, ?_⟩
  · exact (isin_true_iff _ _).2 (hs ((isin_true_iff _ _).1 hsp))
  · rcases (ltNaN_true_iff _ _).1 hlt with ⟨b, hb, hblt⟩
    exact (ltNaN_true_iff _ _).2 ⟨b, hb, lt_of_lt_of_le hblt hm⟩

/-- Witness for C10: a record surviving the smaller selection survives the
larger one. -/
theorem c10_monotone_witness : rA ∈ filtered_df sampleD sampleS :=
  c10_monotone sampleD smallS sampleS (by decide) (by decide) rA (by decide)

end Penguins
